import Mathlib

/-!
Verification of the Traffic_Vehile_Identifier repository core logic:
the JWT-style authentication layer (src/auth.py, auth endpoints of
src/main.py) and the video/image prediction pipeline (src/main.py),
shallowly embedded in Lean 4.

Conventions of the embedding:
- Python's in-memory `fake_users_db` dict becomes an association list
  `UsersDb`; dict lookup/insert are `dbLookup`/`dbInsert`; functions that
  may mutate the global db are written in explicit state-passing style
  (they return the new db alongside their result).
- PyJWT tokens become the inductive `TokenString`: either a structurally
  valid token signed with some key and carrying the `sub`/`exp` claims,
  or `garbage` (a string that does not decode).  `jwt_decode` follows
  PyJWT semantics: signature checked against the given key, then the
  `exp` claim is compared with the current time (`exp <= now` raises
  ExpiredSignatureError; PyJWT uses integer UTC timestamps, modelled as
  `Int` seconds since epoch).
- HTTPException becomes `HttpError` (status code + detail string).
- Floats used only as confidence thresholds are modelled as `Rat`
  (the FastAPI `Query` bound checks `0.0 <= conf <= 1.0` are exact
  order comparisons, faithfully represented on rationals).
- The external YOLO model and cv2 encode/decode are black boxes: a video
  is a `List` of abstract frames and the per-frame detection+plot step is
  an abstract function that may fail (`annotate : Frame -> Except String
  AnnotatedFrame`), matching the spec's treatment of the model as an
  external collaborator.
-/

/-- HTTPException from fastapi: a status code plus a detail string. -/
structure HttpError where
  status : Nat
  detail : String
deriving DecidableEq

/-- One record of `fake_users_db` in src/auth.py: a dict with keys
username, password, disabled. -/
structure UserRecord where
  username : String
  password : String
  disabled : Bool
deriving DecidableEq

/-- Pydantic model UserAuth from src/auth.py. -/
structure UserAuth where
  username : String
  password : String
deriving DecidableEq

/-- The in-memory user dict of src/auth.py, as an association list from
username keys to records.  Python dict keys are unique; operations below
preserve key-uniqueness. -/
abbrev UsersDb := List (String × UserRecord)

/-- Python dict lookup `fake_users_db.get(k)` / `k in fake_users_db`. -/
def dbLookup (db : UsersDb) (k : String) : Option UserRecord :=
  (db.find? (fun e => e.1 == k)).map Prod.snd

/-- Python dict assignment `fake_users_db[k] = v`: overwrite the entry if
the key is present, otherwise append a new entry. -/
def dbInsert (db : UsersDb) (k : String) (v : UserRecord) : UsersDb :=
  if db.any (fun e => e.1 == k) then
    db.map (fun e => if e.1 == k then (k, v) else e)
  else
    db ++ [(k, v)]

/-- Initial content of fake_users_db (src/auth.py lines 29-35). -/
def fake_users_db : UsersDb :=
  [("admin", { username := "admin", password := "secretpassword", disabled := false })]

/-- SECRET_KEY from src/auth.py line 18. -/
def SECRET_KEY : String := "super_secret_diabolical_key"

/-- ACCESS_TOKEN_EXPIRE_MINUTES from src/auth.py line 20. -/
def ACCESS_TOKEN_EXPIRE_MINUTES : Int := 30

/-- A JWT string as handed around by the code: either a structurally
valid compact token signed with `key` and carrying an optional `sub`
claim (absent = `none`; Python `payload.get` then yields None) and an
integer `exp` timestamp, or an arbitrary broken string. -/
inductive TokenString where
  | signed (sub : Option String) (exp : Int) (key : String) : TokenString
  | garbage : TokenString
deriving DecidableEq

/-- Decoded JWT payload: the claims the code reads. -/
structure JwtPayload where
  sub : Option String
  exp : Int
deriving DecidableEq

/-- Errors raised by `jwt.decode` that src/auth.py catches. -/
inductive JwtDecodeError where
  | ExpiredSignatureError : JwtDecodeError
  | PyJWTError : JwtDecodeError
deriving DecidableEq

/-- jwt.decode(token, key, algorithms): raises PyJWTError when the token
is broken or its signature does not match `key`; otherwise validates the
exp claim against the current integer UTC timestamp, raising
ExpiredSignatureError when `exp <= now` (PyJWT checks
`exp <= now - leeway` with leeway 0); otherwise returns the payload. -/
def jwt_decode (token : TokenString) (key : String) (now : Int) :
    Except JwtDecodeError JwtPayload :=
  match token with
  | .garbage => .error .PyJWTError
  | .signed sub exp k =>
      if k ≠ key then .error .PyJWTError
      else if exp ≤ now then .error .ExpiredSignatureError
      else .ok { sub := sub, exp := exp }

/-- create_access_token from src/auth.py lines 52-69: copies the data
(whose only claim here is the optional subject), computes the absolute
expiry `now + expires_delta` (or now + 15 minutes when no delta is
given), and signs with SECRET_KEY.  `now` and deltas are integer UTC
seconds. -/
def create_access_token (sub : Option String) (now : Int)
    (expires_delta : Option Int) : TokenString :=
  let expire : Int :=
    match expires_delta with
    | some d => now + d
    | none => now + 15 * 60
  .signed sub expire SECRET_KEY

/-- verify_token from src/auth.py lines 73-94: decodes with SECRET_KEY;
on success reads `payload.get('sub')` and raises 401 "Token is missing
username" when it is None, otherwise returns the username (note: an
empty string is not None, so it is returned); ExpiredSignatureError maps
to 401 "Token has expired! Login again." and any other PyJWTError to 401
"Invalid token". -/
def verify_token (token : TokenString) (now : Int) :
    Except HttpError String :=
  match jwt_decode token SECRET_KEY now with
  | .ok payload =>
      match payload.sub with
      | none => .error { status := 401, detail := "Token is missing username" }
      | some username => .ok username
  | .error .ExpiredSignatureError =>
      .error { status := 401, detail := "Token has expired! Login again." }
  | .error .PyJWTError =>
      .error { status := 401, detail := "Invalid token" }

/-- register_new_user from src/auth.py lines 99-109, in state-passing
style: raises 400 "Username already exists" when the username is a key
of the db (leaving the db unchanged), otherwise inserts a fresh
non-disabled record and returns the submitted user. -/
def register_new_user (db : UsersDb) (user : UserAuth) :
    Except HttpError UserAuth × UsersDb :=
  if (dbLookup db user.username).isSome then
    (.error { status := 400, detail := "Username already exists" }, db)
  else
    (.ok user,
     dbInsert db user.username
       { username := user.username, password := user.password, disabled := false })

/-- authenticate_user from src/auth.py lines 112-118, in state-passing
style: returns None when the username is absent or the stored password
differs, else the stored record; it only reads the db, so the db
component of the result is the input db. -/
def authenticate_user (db : UsersDb) (user : UserAuth) :
    Option UserRecord × UsersDb :=
  let res : Option UserRecord :=
    match dbLookup db user.username with
    | none => none
    | some db_user => if db_user.password ≠ user.password then none else some db_user
  (res, db)

/-- TokenResponse from src/auth.py lines 44-47. -/
structure TokenResponse where
  access_token : TokenString
  token_type : String
  expires_in : Int
deriving DecidableEq

/-- POST /register from src/main.py lines 134-141: register_new_user
(propagating its 400 on duplicate), then issue a token for the submitted
username with expires_delta = 30 minutes. -/
def register_endpoint (db : UsersDb) (user : UserAuth) (now : Int) :
    Except HttpError TokenResponse × UsersDb :=
  match register_new_user db user with
  | (.error e, db1) => (.error e, db1)
  | (.ok _, db1) =>
      (.ok { access_token :=
               create_access_token (some user.username) now
                 (some (ACCESS_TOKEN_EXPIRE_MINUTES * 60)),
             token_type := "Bearer",
             expires_in := ACCESS_TOKEN_EXPIRE_MINUTES * 60 }, db1)

/-- POST /login from src/main.py lines 143-153: authenticate_user; on
None raise 401 "Incorrect username or password", else issue a token for
the submitted username with expires_delta = 30 minutes. -/
def login_endpoint (db : UsersDb) (user : UserAuth) (now : Int) :
    Except HttpError TokenResponse × UsersDb :=
  match authenticate_user db user with
  | (none, db1) =>
      (.error { status := 401, detail := "Incorrect username or password" }, db1)
  | (some _, db1) =>
      (.ok { access_token :=
               create_access_token (some user.username) now
                 (some (ACCESS_TOKEN_EXPIRE_MINUTES * 60)),
             token_type := "Bearer",
             expires_in := ACCESS_TOKEN_EXPIRE_MINUTES * 60 }, db1)

/-- FastAPI query-parameter boundary of predict_image (src/main.py line
30): `conf: float = Query(0.25, ge=0.0, le=1.0)`.  FastAPI rejects the
request with a 422 validation error before the handler body runs when a
bound fails; otherwise the value is passed through unchanged (never
clamped). -/
def predict_image_conf_check (conf : Rat) : Except HttpError Rat :=
  if 0 ≤ conf ∧ conf ≤ 1 then .ok conf
  else .error { status := 422, detail := "Input should be in the range [0, 1]" }

/-- FastAPI query-parameter boundary of predict_video (src/main.py line
73): `conf: float = Query(0.25)` — no ge/le constraints, so every value
is accepted and passed through unchanged. -/
def predict_video_conf_check (conf : Rat) : Except HttpError Rat :=
  .ok conf

/-- The while loop of predict_video (src/main.py lines 98-115), over the
finite list of frames the capture yields.  `annotate` is one iteration's
`model.predict(frame, conf)` followed by `results[0].plot()`; it may
raise (modelled as `Except.error`), in which case the whole try block
aborts with that exception.  Each successfully annotated frame is
written to the output before `frame_count` is incremented and tested, so
the loop stops only after `frame_count > 300` — i.e. after 301 writes. -/
def videoLoop {α β : Type} (annotate : α → Except String β) :
    List α → Nat → Except String (List β)
  | [], _ => .ok []
  | frame :: rest, frame_count =>
      match annotate frame with
      | .error e => .error e
      | .ok annotated_frame =>
          let fc := frame_count + 1
          if fc > 300 then .ok [annotated_frame]
          else
            match videoLoop annotate rest fc with
            | .error e => .error e
            | .ok outs => .ok (annotated_frame :: outs)

/-- Observable outcome of one predict_video invocation after the input
has been materialized to a temp file: the HTTP response (the list of
frames in the returned output file, or an HTTPException), and which of
the request's resources were cleaned up on that exit path. -/
structure VideoOutcome (β : Type) where
  response : Except HttpError (List β)
  inputDeleted : Bool
  capReleased : Bool
  outReleased : Bool
  outputFileDeleted : Bool

/-- Body of predict_video (src/main.py lines 86-128) from the point
where the input temp file and output writer exist.  On loop success,
`cap.release()` and `out.release()` run and the output file is returned
via FileResponse; on an exception inside the try block, the except
clause raises HTTPException 500 with the exception text, skipping both
release calls and never deleting the output file.  The finally clause
deletes the input temp file on every path. -/
def predict_video_pipeline {α β : Type} (annotate : α → Except String β)
    (frames : List α) : VideoOutcome β :=
  match videoLoop annotate frames 0 with
  | .ok outs =>
      { response := .ok outs,
        inputDeleted := true, capReleased := true, outReleased := true,
        outputFileDeleted := false }
  | .error e =>
      { response := .error { status := 500, detail := e },
        inputDeleted := true, capReleased := false, outReleased := false,
        outputFileDeleted := false }

/-- Vehicle-counting and status logic of predict_image (src/main.py
lines 53-63): the detected class labels of one image are tallied with
`Counter`, `total` is the sum of the counter's values, and the status
string is "Congested 🚨" when total > 15, else "Clear ✅".  Returns
(total_vehicles, breakdown, status). -/
def predict_image_summary (labels : List String) :
    Nat × List (String × Nat) × String :=
  let counts := labels.dedup.map (fun l => (l, labels.count l))
  let total := (counts.map Prod.snd).sum
  (total, counts, if total > 15 then "Congested 🚨" else "Clear ✅")

/-- Representation invariant of the user dict observed in src/auth.py:
every stored record's username field equals its dict key and its
disabled field is False. -/
def dbInv (db : UsersDb) : Prop :=
  ∀ e ∈ db, e.2.username = e.1 ∧ e.2.disabled = false

/-! ### Helper lemmas -/

/-- When every frame annotates successfully, the loop started at count
`cnt ≤ 300` returns the annotations of the first `301 - cnt` frames in
input order. -/
theorem videoLoop_ok_eq {α β : Type} (ann : α → β) :
    ∀ (frames : List α) (cnt : Nat), cnt ≤ 300 →
      videoLoop (fun f => Except.ok (ann f)) frames cnt =
        Except.ok ((frames.take (301 - cnt)).map ann) := by
  intro frames
  induction frames with
  | nil =>
      intro cnt h
      simp [videoLoop]
  | cons f rest ih =>
      intro cnt h
      by_cases hc : cnt + 1 > 300
      · have hcnt : cnt = 300 := by omega
        subst hcnt
        simp [videoLoop]
      · have h1 : cnt + 1 ≤ 300 := by omega
        have hrw := ih (cnt + 1) h1
        have h301 : 301 - cnt = (301 - (cnt + 1)) + 1 := by omega
        simp [videoLoop, hc, hrw, h301]

/-- Success-path response of the pipeline: the annotations of the first
301 input frames, in input order. -/
theorem predict_video_pipeline_ok_eq {α β : Type} (ann : α → β)
    (frames : List α) :
    (predict_video_pipeline (fun f => Except.ok (ann f)) frames).response =
      Except.ok ((frames.take 301).map ann) := by
  have h := videoLoop_ok_eq ann frames 0 (by omega)
  simp [predict_video_pipeline, h]

/-! ### Claim theorems: video pipeline -/

/-- Claim C9 (confirmed): the annotated frames in the video response are
exactly the per-frame annotation applied to the input frames in input
order — the map of the annotation over a prefix of the input — with no
reordering, no duplication, and no drops other than the truncation
performed by the frame-cap check (which stops the loop after its 301st
write, see C1). -/
theorem predict_video_order_preserved {α β : Type} (ann : α → β)
    (frames : List α) :
    (predict_video_pipeline (fun f => Except.ok (ann f)) frames).response =
      Except.ok ((frames.take 301).map ann) :=
  predict_video_pipeline_ok_eq ann frames

/-- Counterexample to claim C1: on a 500-frame input the pipeline
returns 301 annotated frames, not 300 — the cap check `frame_count >
300` runs after the write, so the 301st frame is written before the
loop stops. -/
theorem predict_video_cap_counterexample :
    (predict_video_pipeline (fun n : Nat => Except.ok n)
        (List.range 500)).response = Except.ok (List.range 301) ∧
    (List.range 301).length ≠ 300 := by
  constructor
  · have h := predict_video_pipeline_ok_eq (fun n : Nat => n) (List.range 500)
    simpa [List.take_range] using h
  · simp

/-- Claim C1 as amended: on any input with more than 300 frames the
pipeline writes exactly 301 annotated frames (the cap plus one, due to
the post-write check), and reaching the cap is not an error — the
response is a success. -/
theorem predict_video_cap_amended {α β : Type} (ann : α → β)
    (frames : List α) (h : 301 ≤ frames.length) :
    ∃ outs : List β,
      (predict_video_pipeline (fun f => Except.ok (ann f)) frames).response =
        Except.ok outs ∧ outs.length = 301 := by
  refine ⟨(frames.take 301).map ann, predict_video_pipeline_ok_eq ann frames, ?_⟩
  simp
  omega

/-- Witness for the amended C1 at a concrete 400-frame input. -/
theorem predict_video_cap_amended_witness :
    ∃ outs : List Nat,
      (predict_video_pipeline (fun n : Nat => Except.ok n)
          (List.range 400)).response = Except.ok outs ∧ outs.length = 301 :=
  predict_video_cap_amended (fun n : Nat => n) (List.range 400) (by simp)

/-- Counterexample to claim C4: when the first frame's detection call
fails, the pipeline raises HTTPException 500 but the frame source and
the sink are not released (`cap.release()` / `out.release()` sit inside
the try block, after the loop) and the output temp file is not deleted. -/
theorem predict_video_failure_leak_counterexample :
    ((predict_video_pipeline
        (fun _ : Nat => (Except.error "decode failure" : Except String Nat))
        [0]).capReleased = false) ∧
    ((predict_video_pipeline
        (fun _ : Nat => (Except.error "decode failure" : Except String Nat))
        [0]).outReleased = false) ∧
    ((predict_video_pipeline
        (fun _ : Nat => (Except.error "decode failure" : Except String Nat))
        [0]).outputFileDeleted = false) ∧
    ((predict_video_pipeline
        (fun _ : Nat => (Except.error "decode failure" : Except String Nat))
        [0]).response =
      Except.error { status := 500, detail := "decode failure" }) :=
  ⟨rfl, rfl, rfl, rfl⟩

/-- Claim C4 as amended: on every exit path of the pipeline the input
temp file is deleted (the finally clause); on success the source and
sink are released and the output returned; on failure no output is
handed to the caller (the response is an HTTP 500 error), but the source
and sink are not released and the output file is not deleted. -/
theorem predict_video_cleanup_amended {α β : Type}
    (annotate : α → Except String β) (frames : List α) :
    (predict_video_pipeline annotate frames).inputDeleted = true ∧
    (∀ outs, (predict_video_pipeline annotate frames).response = Except.ok outs →
      (predict_video_pipeline annotate frames).capReleased = true ∧
      (predict_video_pipeline annotate frames).outReleased = true) ∧
    (∀ err, (predict_video_pipeline annotate frames).response = Except.error err →
      (predict_video_pipeline annotate frames).capReleased = false ∧
      (predict_video_pipeline annotate frames).outReleased = false ∧
      (predict_video_pipeline annotate frames).outputFileDeleted = false) := by
  unfold predict_video_pipeline
  cases h : videoLoop annotate frames 0 with
  | error e => simp
  | ok outs => simp

/-- Witness for the amended C4 at a concrete failing input. -/
theorem predict_video_cleanup_amended_witness :
    (predict_video_pipeline
        (fun _ : Nat => (Except.error "boom" : Except String Nat))
        [0]).capReleased = false ∧
    (predict_video_pipeline
        (fun _ : Nat => (Except.error "boom" : Except String Nat))
        [0]).outReleased = false ∧
    (predict_video_pipeline
        (fun _ : Nat => (Except.error "boom" : Except String Nat))
        [0]).outputFileDeleted = false :=
  (predict_video_cleanup_amended
      (fun _ : Nat => (Except.error "boom" : Except String Nat)) [0]).2.2
    { status := 500, detail := "boom" } rfl

/-- Counterexample to claim C3: the video endpoint accepts the
out-of-range confidence 2.0 — `Query(0.25)` carries no ge/le bounds, so
the value reaches the pipeline unrejected. -/
theorem predict_video_conf_unvalidated_counterexample :
    predict_video_conf_check 2 = Except.ok 2 ∧ ¬((2 : Rat) ≤ 1) := by
  constructor
  · rfl
  · norm_num

/-- Claim C3 as amended: only the image endpoint validates the
confidence threshold — it passes the value through unchanged exactly
when 0 ≤ conf ≤ 1 and rejects it with a 422 validation error otherwise
(never clamping) — while the video endpoint accepts every value
unchanged, with no range validation at all. -/
theorem conf_validation_image_only (conf : Rat) :
    (predict_image_conf_check conf = Except.ok conf ↔ 0 ≤ conf ∧ conf ≤ 1) ∧
    (predict_image_conf_check conf =
        Except.error { status := 422, detail := "Input should be in the range [0, 1]" } ↔
      ¬(0 ≤ conf ∧ conf ≤ 1)) ∧
    predict_video_conf_check conf = Except.ok conf := by
  refine ⟨⟨fun h => ?_, fun h => ?_⟩, ⟨fun h => ?_, fun h => ?_⟩, rfl⟩
  · by_contra hc
    simp [predict_image_conf_check, hc] at h
  · simp [predict_image_conf_check, h]
  · by_contra hc
    simp [predict_image_conf_check, hc] at h
  · simp [predict_image_conf_check, h]

/-- The status string as a function of the total, with its two readings. -/
theorem congestion_status_iff (t : Nat) :
    (((if t > 15 then "Congested 🚨" else "Clear ✅") : String) = "Congested 🚨" ↔
      15 < t) ∧
    (((if t > 15 then "Congested 🚨" else "Clear ✅") : String) = "Clear ✅" ↔
      t ≤ 15) := by
  by_cases h : 15 < t
  · constructor
    · simp [h]
    · rw [if_pos h]
      constructor
      · intro hs
        exact absurd hs (by decide)
      · intro hle
        omega
  · constructor
    · rw [if_neg h]
      constructor
      · intro hs
        exact absurd hs (by decide)
      · intro hlt
        omega
    · simp [h]
      omega

/-! ### Claim theorems: image prediction -/

/-- Claim C5 (confirmed): the total vehicle count equals the number of
detections, and the returned status is the congested flag exactly when
that total is strictly greater than 15, the clear flag exactly when it
is at most 15 (so 15 detections read clear and 16 congested).  The code
spells the two flag values "Congested 🚨" and "Clear ✅". -/
theorem predict_image_congestion_boundary (labels : List String) :
    (predict_image_summary labels).1 = labels.length ∧
    ((predict_image_summary labels).2.2 = "Congested 🚨" ↔
      15 < (predict_image_summary labels).1) ∧
    ((predict_image_summary labels).2.2 = "Clear ✅" ↔
      (predict_image_summary labels).1 ≤ 15) := by
  refine ⟨?_, (congestion_status_iff (predict_image_summary labels).1).1,
    (congestion_status_iff (predict_image_summary labels).1).2⟩
  show ((labels.dedup.map (fun l => (l, labels.count l))).map Prod.snd).sum =
    labels.length
  rw [List.map_map]
  exact List.sum_map_count_dedup_eq_length labels

/-! ### Claim theorems: token verification -/

/-- Counterexample to claim C2: a well-signed, unexpired token whose
subject claim is the empty string verifies successfully and returns the
empty subject — `payload.get('sub')` yields "" which is not None, so
the missing-username check does not fire. -/
theorem verify_token_empty_subject_counterexample :
    verify_token (TokenString.signed (some "") 100 SECRET_KEY) 0 =
      Except.ok "" := by
  rfl

/-- Claim C2 as amended: verification of a well-signed, unexpired token
fails with the 401 missing-username error exactly when the subject claim
is absent; an empty-string subject is accepted and returned as the
principal. -/
theorem verify_token_missing_subject_amended (exp now : Int)
    (h : now < exp) :
    verify_token (TokenString.signed none exp SECRET_KEY) now =
      Except.error { status := 401, detail := "Token is missing username" } ∧
    verify_token (TokenString.signed (some "") exp SECRET_KEY) now =
      Except.ok "" := by
  have hne : ¬(exp ≤ now) := by omega
  constructor <;> simp [verify_token, jwt_decode, hne]

/-- Witness for the amended C2 at concrete timestamps. -/
theorem verify_token_missing_subject_amended_witness :
    verify_token (TokenString.signed none 100 SECRET_KEY) 0 =
      Except.error { status := 401, detail := "Token is missing username" } ∧
    verify_token (TokenString.signed (some "") 100 SECRET_KEY) 0 =
      Except.ok "" :=
  verify_token_missing_subject_amended 100 0 (by decide)

/-- Claim C8 (confirmed): any well-signed token whose embedded expiry is
at most the current time — in particular one issued with TTL 0 and
verified no earlier than its issue time — fails verification with the
401 token-expired error (and not the malformed/invalid-token error). -/
theorem verify_token_expired_theorem (sub : Option String)
    (exp now t : Int) (h : exp ≤ now) (ht : t ≤ now) :
    verify_token (TokenString.signed sub exp SECRET_KEY) now =
      Except.error { status := 401, detail := "Token has expired! Login again." } ∧
    verify_token (create_access_token sub t (some 0)) now =
      Except.error { status := 401, detail := "Token has expired! Login again." } := by
  have h2 : t + 0 ≤ now := by omega
  constructor <;> simp [verify_token, jwt_decode, create_access_token, h, h2, ht]

/-- Witness for C8: a token expiring at time 0 verified at time 0, and a
TTL-0 token issued at time 0 verified at time 0, both report expiry. -/
theorem verify_token_expired_theorem_witness :
    verify_token (TokenString.signed (some "admin") 0 SECRET_KEY) 0 =
      Except.error { status := 401, detail := "Token has expired! Login again." } ∧
    verify_token (create_access_token (some "admin") 0 (some 0)) 0 =
      Except.error { status := 401, detail := "Token has expired! Login again." } :=
  verify_token_expired_theorem (some "admin") 0 0 0 (by decide) (by decide)

/-- A lookup miss means the underlying find? misses. -/
theorem dbLookup_none_find?_none (db : UsersDb) (k : String)
    (h : dbLookup db k = none) :
    db.find? (fun e => e.1 == k) = none := by
  cases hf : db.find? (fun e => e.1 == k) with
  | none => rfl
  | some e =>
      rw [dbLookup, hf] at h
      simp at h

/-- A lookup miss means no entry carries the key. -/
theorem dbLookup_none_any_false (db : UsersDb) (k : String)
    (h : dbLookup db k = none) :
    db.any (fun e => e.1 == k) = false := by
  have hf := dbLookup_none_find?_none db k h
  rw [List.any_eq_false]
  intro x hx
  exact List.find?_eq_none.mp hf x hx

/-- Inserting under a fresh key makes that key resolve to the new
record. -/
theorem dbLookup_dbInsert_self (db : UsersDb) (k : String) (v : UserRecord)
    (h : dbLookup db k = none) :
    dbLookup (dbInsert db k v) k = some v := by
  have hf := dbLookup_none_find?_none db k h
  have hany := dbLookup_none_any_false db k h
  rw [dbInsert, if_neg (by simp [hany])]
  rw [dbLookup, List.find?_append, hf]
  simp

/-! ### Claim theorems: credential store -/

/-- Claim C6 (confirmed): registering a username that is already a key
of the store fails with the 400 duplicate-username error, leaves the
store untouched, and the store keeps exactly one record under that
(case-sensitively matched) username.  The Nodup hypothesis is the dict
representation invariant of the association-list model. -/
theorem register_duplicate_rejected (db : UsersDb) (u p : String)
    (r : UserRecord) (hkeys : (db.map Prod.fst).Nodup)
    (hmem : dbLookup db u = some r) :
    register_new_user db { username := u, password := p } =
      (Except.error { status := 400, detail := "Username already exists" }, db) ∧
    db.countP (fun e => e.1 == u) = 1 := by
  constructor
  · rw [register_new_user]
    simp [hmem]
  · obtain ⟨e, hfind⟩ : ∃ e, db.find? (fun x => x.1 == u) = some e := by
      rw [dbLookup] at hmem
      cases hf : db.find? (fun x => x.1 == u) with
      | none => rw [hf] at hmem; simp at hmem
      | some e => exact ⟨e, rfl⟩
    have hmem2 : e ∈ db := List.mem_of_find?_eq_some hfind
    have heq : e.1 = u := by simpa using List.find?_some hfind
    have humem : u ∈ db.map Prod.fst := by
      rw [← heq]
      exact List.mem_map_of_mem Prod.fst hmem2
    have hcount : (db.map Prod.fst).count u = 1 :=
      List.count_eq_one_of_mem hkeys humem
    calc db.countP (fun e => e.1 == u)
        = (db.map Prod.fst).countP (fun x => x == u) := by
          rw [List.countP_map]
          rfl
      _ = 1 := by
          rw [← List.count_eq_countP]
          exact hcount

/-- Witness for C6 at the initial store and its preregistered admin
user. -/
theorem register_duplicate_rejected_witness :
    register_new_user fake_users_db { username := "admin", password := "x" } =
      (Except.error { status := 400, detail := "Username already exists" },
       fake_users_db) ∧
    fake_users_db.countP (fun e => e.1 == "admin") = 1 :=
  register_duplicate_rejected fake_users_db "admin" "x"
    { username := "admin", password := "secretpassword", disabled := false }
    (by decide) (by decide)

/-- Claim C7 (confirmed): for a username not previously registered,
register followed immediately by login with the same credentials both
succeed, the store after login is the store after register, and both
issued tokens verify (at any time before their common expiry) to that
same username. -/
theorem register_login_roundtrip (db : UsersDb) (u p : String)
    (now now2 : Int) (hfresh : dbLookup db u = none)
    (hlive : now2 < now + 1800) :
    ∃ (t1 : TokenResponse) (db1 : UsersDb) (t2 : TokenResponse),
      register_endpoint db { username := u, password := p } now =
        (Except.ok t1, db1) ∧
      login_endpoint db1 { username := u, password := p } now =
        (Except.ok t2, db1) ∧
      verify_token t1.access_token now2 = Except.ok u ∧
      verify_token t2.access_token now2 = Except.ok u := by
  have hlookup1 : dbLookup
      (dbInsert db u { username := u, password := p, disabled := false }) u =
      some { username := u, password := p, disabled := false } :=
    dbLookup_dbInsert_self db u _ hfresh
  have hreg : register_endpoint db { username := u, password := p } now =
      (Except.ok
        { access_token :=
            create_access_token (some u) now
              (some (ACCESS_TOKEN_EXPIRE_MINUTES * 60)),
          token_type := "Bearer",
          expires_in := ACCESS_TOKEN_EXPIRE_MINUTES * 60 },
       dbInsert db u { username := u, password := p, disabled := false }) := by
    simp [register_endpoint, register_new_user, hfresh]
  have hlog : login_endpoint
      (dbInsert db u { username := u, password := p, disabled := false })
      { username := u, password := p } now =
      (Except.ok
        { access_token :=
            create_access_token (some u) now
              (some (ACCESS_TOKEN_EXPIRE_MINUTES * 60)),
          token_type := "Bearer",
          expires_in := ACCESS_TOKEN_EXPIRE_MINUTES * 60 },
       dbInsert db u { username := u, password := p, disabled := false }) := by
    simp [login_endpoint, authenticate_user, hlookup1]
  have hverify : verify_token
      (create_access_token (some u) now (some (ACCESS_TOKEN_EXPIRE_MINUTES * 60)))
      now2 = Except.ok u := by
    have hne : ¬(now + ACCESS_TOKEN_EXPIRE_MINUTES * 60 ≤ now2) := by
      simp only [ACCESS_TOKEN_EXPIRE_MINUTES]
      omega
    simp [verify_token, jwt_decode, create_access_token, hne]
  exact ⟨_, _, _, hreg, hlog, hverify, hverify⟩

/-- Witness for C7: a fresh user registered against the initial store at
time 0 and verified at time 0. -/
theorem register_login_roundtrip_witness :
    ∃ (t1 : TokenResponse) (db1 : UsersDb) (t2 : TokenResponse),
      register_endpoint fake_users_db { username := "alice", password := "pw" } 0 =
        (Except.ok t1, db1) ∧
      login_endpoint db1 { username := "alice", password := "pw" } 0 =
        (Except.ok t2, db1) ∧
      verify_token t1.access_token 0 = Except.ok "alice" ∧
      verify_token t2.access_token 0 = Except.ok "alice" :=
  register_login_roundtrip fake_users_db "alice" "pw" 0 0 (by decide) (by decide)

/-- Claim C10 (confirmed): the store invariant — each record's username
field equals its key and its disabled field is False — holds of the
initial store and is preserved by register_new_user, and
authenticate_user returns the store unchanged. -/
theorem users_db_invariant_theorem :
    dbInv fake_users_db ∧
    (∀ (db : UsersDb) (user : UserAuth), dbInv db →
      dbInv (register_new_user db user).2) ∧
    (∀ (db : UsersDb) (user : UserAuth),
      (authenticate_user db user).2 = db) := by
  refine ⟨?_, ?_, ?_⟩
  · intro e he
    simp only [fake_users_db, List.mem_singleton] at he
    subst he
    exact ⟨rfl, rfl⟩
  · intro db user h
    rw [register_new_user]
    by_cases hs : (dbLookup db user.username).isSome
    · simpa [hs] using h
    · have hnone : dbLookup db user.username = none :=
        Option.not_isSome_iff_eq_none.mp hs
      have hany := dbLookup_none_any_false db user.username hnone
      simp only [hs, if_false, Bool.false_eq_true]
      rw [dbInsert, if_neg (by simp [hany])]
      intro e he
      rcases List.mem_append.mp he with h1 | h2
      · exact h e h1
      · simp only [List.mem_singleton] at h2
        subst h2
        exact ⟨rfl, rfl⟩
  · intro db user
    rfl

/-- Witness for C10: the invariant after registering a fresh user into
the initial store, and authenticate leaving the initial store intact. -/
theorem users_db_invariant_witness :
    dbInv (register_new_user fake_users_db
      { username := "bob", password := "pw" }).2 ∧
    (authenticate_user fake_users_db { username := "bob", password := "pw" }).2 =
      fake_users_db :=
  ⟨users_db_invariant_theorem.2.1 fake_users_db
      { username := "bob", password := "pw" } users_db_invariant_theorem.1,
   users_db_invariant_theorem.2.2 fake_users_db
      { username := "bob", password := "pw" }⟩
